import Mathlib

/-!
Shallow embedding of the CNDR recoding and derivation pipeline
(source: src/cndr_stats/dataimport.py).

Modelling conventions:
* A cell value is a `Val`: a text value, a numeric value, a raw boolean, or
  missing (pandas NaN / absent cell).  Floating point is modelled by `ℚ`: all
  arithmetic the pipeline performs (halving, ceiling, means of at most three
  values, threshold comparisons against 0.5 / 1.5 / 2.5) is exact in binary
  floating point on the values the pipeline manipulates, so rationals are a
  faithful model and the choice of float32 vs float64 in the source does not
  affect any comparison.
* NaN semantics: a missing numeric value is `Option.none`; every ordered
  comparison against `none` is false (pandas/numpy NaN comparison semantics),
  and arithmetic with `none` propagates `none`.
* A `Record` is an association list from column name to value; a cell that a
  record does not carry reads as `Val.missing` (a NaN cell of the dataframe).
  A `Table` carries the list of column names (for the `col in df` presence
  tests of the source) together with its records.
-/

inductive Val where
  | str (s : String)
  | num (q : ℚ)
  | bool (b : Bool)
  | missing
deriving DecidableEq, Repr

abbrev Record := List (String × Val)

/-- Read a cell of a record; an absent cell is a missing (NaN) value. -/
def Record.get (r : Record) (c : String) : Val :=
  match r.find? (fun p => p.1 == c) with
  | some p => p.2
  | none => Val.missing

/-- Overwrite (or create) the cell of column `c`, as `df[c] = value` does. -/
def Record.set (r : Record) (c : String) (v : Val) : Record :=
  r.filter (fun p => !(p.1 == c)) ++ [(c, v)]

structure Table where
  cols : List String
  rows : List Record
deriving DecidableEq, Repr

/-- Append a column name if it is not already present. -/
def addCol (cols : List String) (c : String) : List String :=
  if c ∈ cols then cols else cols ++ [c]

/-! ## Field recoder (`semiq_scores_to_numeric`) -/

/-- The ten pathology measure codes of the source. -/
def measures : List String :=
  ["Tau", "ThioPlaques", "AntibodyPlaques", "aSyn", "Ubiquitin",
   "Gliosis", "NeuronLoss", "TDP43", "Other", "Update"]

/-- The 24 anatomical region codes of the source. -/
def regions : List String :=
  ["Amyg", "DG", "CS", "EC", "MF", "Ang", "SMT", "Cing", "OC",
   "Neocortical", "CP", "GP", "TS", "Subcortical", "MB", "SN",
   "Pons", "LC", "Med", "CB", "SC", "Brainstem", "MC", "OFC"]

/-- Cross product of regions and measures: the region-measure column names. -/
def cols_semiq : List String :=
  regions.flatMap (fun x => measures.map (fun y => x ++ y))

/-- The fixed semi-quantitative recoding table of the source (`repl_semiq`),
kept as explicit ordered data. -/
def repl_semiq : List (String × Val) :=
  [("Rare", Val.num (1/2)), ("2+", Val.num 2), ("3+", Val.num 3),
   ("1+", Val.num 1), ("0", Val.num 0), ("Presumed 0", Val.num 0),
   ("Not Avail", Val.missing), ("Not Done", Val.missing),
   ("Not Available", Val.missing)]

/-- One cell under a `df.replace` column dictionary: a text cell equal to a
key of the rule table is replaced by the mapped value, every other cell is
left unchanged. -/
def replaceVal (rules : List (String × Val)) : Val → Val
  | Val.str s =>
    match rules.find? (fun p => p.1 == s) with
    | some p => p.2
    | none => Val.str s
  | v => v

/-- `semiq_scores_to_numeric`: apply `repl_semiq` to every cell of every
region-measure column; cells of other columns (and columns absent from the
table) are untouched. -/
def semiq_scores_to_numeric (t : Table) : Table :=
  ⟨t.cols,
   t.rows.map (fun r =>
     r.map (fun cv =>
       (cv.1, if cv.1 ∈ cols_semiq then replaceVal repl_semiq cv.2 else cv.2)))⟩

/-! ## Stage reconciler (`merge_braak_stages`) -/

/-- A staging cell after `replace({'Unknown': nan}).astype(float)`: numbers
stay, the Unknown sentinel and NaN become missing.  (A text value other than
the sentinel makes `astype` raise in the source; the table-level theorems
below restrict to cells on which the cast is defined.) -/
def normStage : Val → Option ℚ
  | Val.num q => some q
  | _ => none

/-- `np.ceil(x * 0.5)` on an exact value. -/
def ceilHalf (q : ℚ) : ℚ := (⌈q * (1/2)⌉ : ℤ)

/-- `np.nanmean` along a list of values: the mean of the non-missing entries,
missing when all entries are missing. -/
def nanmean (xs : List (Option ℚ)) : Option ℚ :=
  let vs := xs.filterMap id
  if vs.length = 0 then none else some (vs.sum / vs.length)

/-- The merged Braak value of one record: `nanmean` of the ceiled half of the
coarse (0-6) stage and the fine (0-3) stage. -/
def mergeVal (v06 v03 : Val) : Option ℚ :=
  nanmean [(normStage v06).map ceilHalf, normStage v03]

def optToVal : Option ℚ → Val
  | some q => Val.num q
  | none => Val.missing

/-- `merge_braak_stages`: when both staging columns exist, add/overwrite the
`BraakMrg` column from `mergeVal`; otherwise return the table unchanged. -/
def merge_braak_stages (t : Table) : Table :=
  if "Braak06" ∈ t.cols ∧ "Braak03" ∈ t.cols then
    ⟨addCol t.cols "BraakMrg",
     t.rows.map (fun r =>
       Record.set r "BraakMrg"
         (optToVal (mergeVal (Record.get r "Braak06") (Record.get r "Braak03"))))⟩
  else t

/-- `clean_cndr_dataset`: the source binds the recoded table and then the
merged table, but its body has no return statement (and the `def` line lacks
the closing colon), so the function body falls off the end and returns
`None`; the augmented table it computed is discarded. -/
def clean_cndr_dataset (t : Table) : Option Table :=
  let _df := semiq_scores_to_numeric t
  let _df := merge_braak_stages _df
  none

/-! ## Diagnostic derivation engine (`add_diagnostic_categories`) -/

/-- The literal AD diagnosis label of the source. -/
def ad_label : String := "Alzheimer's disease"

/-- The literal LATE-NC diagnosis label of the source. -/
def late_label : String :=
  "Limbic-predominant Age-related TDP-43 Encephalopathy (Also known as LATE)"

/-- The label list tested against the primary diagnosis slot
(`is_first_diag_nadt`), exactly as in the source. -/
def first_diag_nadt_labels : List String :=
  ["Argyrophilic grain disease",
   "Corticobasal degeneration",
   "Globular glial tauopathy",
   "Progressive supranuclear palsy",
   "Tauopathy unclassifiable",
   "Other"]

/-- The label list tested against all four diagnosis slots
(`is_any_diag_nadt_ftld`), exactly as in the source. -/
def nadt_ftld_labels : List String :=
  ["Amyotrophic lateral sclerosis",
   "Amyotrophic lateral sclerosis - Other",
   "Argyrophilic grain disease",
   "Chronic Traumatic Encephalopathy",
   "Corticobasal degeneration",
   "Frontotemporal dementia with parkinsonism linked to chromosome 17",
   "Frontotemporal lobar degeneration with TDP inclusions (Also known as FTLD-TDP)",
   "Globular glial tauopathy",
   "Multiple system atrophy",
   "Pick's disease",
   "Progressive supranuclear palsy",
   "Tauopathy unclassifiable",
   "Other"]

/-- `series.isin(labels)` on one cell: the cell equals one of the text labels
(a missing cell is in no label list). -/
def valIsin (v : Val) (ls : List String) : Bool :=
  ls.any (fun s => v == Val.str s)

/-- `(df[slots] == label).any(axis=1)` on one record. -/
def is_any_diag_ad (s1 s2 s3 s4 : Val) : Bool :=
  (s1 == Val.str ad_label) || (s2 == Val.str ad_label) ||
  (s3 == Val.str ad_label) || (s4 == Val.str ad_label)

/-- `df['NPDx1'].isin(first_diag_nadt_labels)` on one record. -/
def is_first_diag_nadt (s1 : Val) : Bool :=
  valIsin s1 first_diag_nadt_labels

/-- `df[slots].isin(nadt_ftld_labels).any(axis=1)` on one record. -/
def is_any_diag_nadt_ftld (s1 s2 s3 s4 : Val) : Bool :=
  valIsin s1 nadt_ftld_labels || valIsin s2 nadt_ftld_labels ||
  valIsin s3 nadt_ftld_labels || valIsin s4 nadt_ftld_labels

/-- `(df[slots] == late_label).any(axis=1)` on one record. -/
def is_any_diag_late (s1 s2 s3 s4 : Val) : Bool :=
  (s1 == Val.str late_label) || (s2 == Val.str late_label) ||
  (s3 == Val.str late_label) || (s4 == Val.str late_label)

/-- `is_any_diag_ad & (-is_first_diag_nadt)`; pandas negation of a boolean
series is logical NOT. -/
def is_robin_eligible (s1 s2 s3 s4 : Val) : Bool :=
  is_any_diag_ad s1 s2 s3 s4 && !(is_first_diag_nadt s1)

/-- `is_ad = is_any_diag_ad & (-is_any_diag_nadt_ftld)` (emitted as
`is_clean_ad`). -/
def is_ad (s1 s2 s3 s4 : Val) : Bool :=
  is_any_diag_ad s1 s2 s3 s4 && !(is_any_diag_nadt_ftld s1 s2 s3 s4)

/-- `is_ad_cont = -is_any_diag_nadt_ftld` (emitted as `is_clean_ad_cont`). -/
def is_ad_cont (s1 s2 s3 s4 : Val) : Bool :=
  !(is_any_diag_nadt_ftld s1 s2 s3 s4)

/-- A numeric cell read for pandas arithmetic/threshold comparison: numbers
stay, NaN is missing.  (A text or raw-boolean cell would make the numeric
comparison of the source raise; the table-level theorems restrict to cells
on which the comparison is defined.) -/
def asNum : Val → Option ℚ
  | Val.num q => some q
  | _ => none

/-- `series > c` on one possibly-missing value: a NaN comparison is false. -/
def gtQ (v : Option ℚ) (c : ℚ) : Bool :=
  match v with
  | some q => decide (c < q)
  | none => false

/-- The `ADNC_severity` cell of one record, following the `df.loc` statements
of the source in order: start at 0, force missing when any of the three
sources is missing, then apply the four ordered overriding threshold rules
(NaN threshold comparisons are false). -/
def adnc_severity (abeta braak cerad : Option ℚ) : Option ℚ :=
  let s : Option ℚ := some 0
  let s := if abeta = none then none else s
  let s := if braak = none then none else s
  let s := if cerad = none then none else s
  let s := if gtQ abeta (1/2) then some 1 else s
  let s := if gtQ braak (3/2) && gtQ abeta (3/2) then some 2 else s
  let s := if gtQ braak (3/2) && gtQ abeta (1/2) && gtQ cerad (3/2) then some 2 else s
  let s := if gtQ braak (5/2) && gtQ abeta (5/2) && gtQ cerad (3/2) then some 3 else s
  s

/-- `(df.CSTDP43 + df.DGTDP43 + df.ECTDP43) / 3.0` on one record: NaN
propagates through the sum and the division. -/
def mtl_tdp (cs dg ec : Option ℚ) : Option ℚ :=
  match cs, dg, ec with
  | some a, some b, some c => some ((a + b + c) / 3)
  | _, _, _ => none

/-- Truthiness of a float operand of the pandas `&` operator: pandas casts
the non-boolean operand of a boolean-series `&` to bool, sending NaN to
False and any non-zero number to True. -/
def truthy (v : Option ℚ) : Bool :=
  match v with
  | some q => decide (q ≠ 0)
  | none => false

/-- The `LATE_stage` cell of one record.  The source mask for stage 2 is
literally `is_any_diag_late & mtl_tdp > 0`; Python binds `&` tighter than
`>`, so it is `(is_any_diag_late & mtl_tdp) > 0`, where pandas coerces the
float series `mtl_tdp` to booleans (NaN and 0 to False, anything else to
True) and comparing the resulting boolean series with 0 returns it
unchanged.  The mask is therefore `is_any_diag_late AND truthy(mtl_tdp)`. -/
def late_stage (late : Bool) (cs dg ec : Option ℚ) : ℚ :=
  let m := mtl_tdp cs dg ec
  let s : ℚ := 0
  let s := if late then 1 else s
  let s := if late && truthy m then 2 else s
  s

/-- Boolean-to-integer encoding `.replace({True: 1, False: 0})`. -/
def boolToInt (b : Bool) : Val := Val.num (if b then 1 else 0)

/-- The four required diagnosis-slot columns. -/
def npdx_cols : List String := ["NPDx1", "NPDx2", "NPDx3", "NPDx4"]

/-- One record through the diagnostic derivation engine, given the column
list of the table (for the two `col in df` guards of the source). -/
def diagRecord (cols : List String) (r : Record) : Record :=
  let s1 := Record.get r "NPDx1"
  let s2 := Record.get r "NPDx2"
  let s3 := Record.get r "NPDx3"
  let s4 := Record.get r "NPDx4"
  let ad := is_any_diag_ad s1 s2 s3 s4
  let nadt_ftld := is_any_diag_nadt_ftld s1 s2 s3 s4
  let late := is_any_diag_late s1 s2 s3 s4
  let robin := is_robin_eligible s1 s2 s3 s4
  let ad_clean := is_ad s1 s2 s3 s4
  let ad_cont := is_ad_cont s1 s2 s3 s4
  let r1 :=
    if "ABeta" ∈ cols ∧ "BraakMrg" ∈ cols ∧ "CERAD" ∈ cols then
      Record.set r "ADNC_severity"
        (optToVal (adnc_severity (asNum (Record.get r "ABeta"))
          (asNum (Record.get r "BraakMrg")) (asNum (Record.get r "CERAD"))))
    else r
  let late_ad := ad_clean && late
  let late_ad_cont := ad_cont && late
  let r2 :=
    if "CSTDP43" ∈ cols ∧ "DGTDP43" ∈ cols ∧ "ECTDP43" ∈ cols then
      Record.set r1 "LATE_stage"
        (Val.num (late_stage late (asNum (Record.get r "CSTDP43"))
          (asNum (Record.get r "DGTDP43")) (asNum (Record.get r "ECTDP43"))))
    else r1
  Record.set (Record.set (Record.set (Record.set (Record.set (Record.set
    (Record.set (Record.set r2
      "is_any_diag_ad" (boolToInt ad))
      "is_any_diag_nadt_ftld" (boolToInt nadt_ftld))
      "is_any_diag_late" (boolToInt late))
      "is_robin_eligible" (boolToInt robin))
      "is_clean_ad" (boolToInt ad_clean))
      "is_clean_ad_cont" (boolToInt ad_cont))
      "is_clean_late_ad" (Val.bool late_ad))
      "is_clean_late_ad_cont" (Val.bool late_ad_cont)

/-- Column list of the table after the derivation engine. -/
def diagCols (cols : List String) : List String :=
  let c1 :=
    if "ABeta" ∈ cols ∧ "BraakMrg" ∈ cols ∧ "CERAD" ∈ cols then
      addCol cols "ADNC_severity"
    else cols
  let c2 :=
    if "CSTDP43" ∈ cols ∧ "DGTDP43" ∈ cols ∧ "ECTDP43" ∈ cols then
      addCol c1 "LATE_stage"
    else c1
  ["is_any_diag_ad", "is_any_diag_nadt_ftld", "is_any_diag_late",
   "is_robin_eligible", "is_clean_ad", "is_clean_ad_cont",
   "is_clean_late_ad", "is_clean_late_ad_cont"].foldl addCol c2

/-- `add_diagnostic_categories`: the first statement of the source selects
`df[['NPDx1','NPDx2','NPDx3','NPDx4']]`, which raises a KeyError naming the
requested columns absent from the table before any derived column is
written; the error value here is that list of absent required columns. -/
def add_diagnostic_categories (t : Table) : Except (List String) Table :=
  let missing := npdx_cols.filter (fun c => !(decide (c ∈ t.cols)))
  if missing.isEmpty then
    Except.ok ⟨diagCols t.cols, t.rows.map (diagRecord t.cols)⟩
  else
    Except.error missing

/-- A staging cell on which `replace({'Unknown': nan}).astype(float)` is
defined: a number, a missing value, or the Unknown sentinel. -/
def stageClean : Val → Bool
  | Val.num _ => true
  | Val.missing => true
  | Val.str s => s == "Unknown"
  | Val.bool _ => false

/-- A cell on which pandas numeric comparison/arithmetic is defined: a
number or a missing value. -/
def numOrMissing : Val → Bool
  | Val.num _ => true
  | Val.missing => true
  | _ => false

/-! ## Association-list record lemmas -/

theorem Record.get_set_self (r : Record) (c : String) (v : Val) :
    Record.get (Record.set r c v) c = v := by
  unfold Record.get Record.set
  rw [List.find?_append]
  have h : (r.filter (fun p => !(p.1 == c))).find? (fun p => p.1 == c) = none := by
    rw [List.find?_eq_none]
    intro x hx
    have hx2 := (List.mem_filter.mp hx).2
    simp only [Bool.not_eq_true'] at hx2
    simp [hx2]
  rw [h]
  simp [List.find?]

theorem Record.get_set_ne (r : Record) (c c' : String) (v : Val) (h : c' ≠ c) :
    Record.get (Record.set r c v) c' = Record.get r c' := by
  have hcc : (c == c') = false := beq_eq_false_iff_ne.mpr (Ne.symm h)
  unfold Record.get Record.set
  rw [List.find?_append]
  have h2 : List.find? (fun p => p.1 == c') [(c, v)] = none := by
    simp [List.find?, hcc]
  rw [h2]
  have h3 : (r.filter (fun p => !(p.1 == c))).find? (fun p => p.1 == c') =
      r.find? (fun p => p.1 == c') := by
    induction r with
    | nil => rfl
    | cons hd tl ih =>
      rcases eq_or_ne hd.1 c with hc | hc
      · have hp : (hd.1 == c') = false := by
          rw [hc]; exact hcc
        simp [List.filter_cons, hc, List.find?_cons, hp, hcc, ih]
      · by_cases hp : hd.1 = c'
        · simp [List.filter_cons, hc, List.find?_cons, hp, Ne.symm h, h]
        · simp [List.filter_cons, hc, List.find?_cons, hp, ih]
  rw [h3]
  cases r.find? (fun p => p.1 == c') <;> rfl

/-! ## Helper lemmas on the derived quantities -/

/-- Every `LATE_stage` cell value is 0, 1 or 2. -/
theorem late_stage_mem (l : Bool) (cs dg ec : Option ℚ) :
    late_stage l cs dg ec = 0 ∨ late_stage l cs dg ec = 1 ∨ late_stage l cs dg ec = 2 := by
  cases l <;> cases h : truthy (mtl_tdp cs dg ec) <;> simp [late_stage, h]

/-- The six-label primary-slot list is contained in the thirteen-label
any-slot list. -/
theorem isin_nadt_of_first (v : Val) (h : valIsin v first_diag_nadt_labels = true) :
    valIsin v nadt_ftld_labels = true := by
  simp only [valIsin, List.any_eq_true, beq_iff_eq] at h ⊢
  obtain ⟨l, hl, rfl⟩ := h
  refine ⟨l, ?_, rfl⟩
  simp only [first_diag_nadt_labels, List.mem_cons, List.not_mem_nil, or_false] at hl
  rcases hl with rfl | rfl | rfl | rfl | rfl | rfl <;> decide

/-- The `LATE_stage` cell written by the derivation engine, when the three
regional TDP-43 columns are present: the per-record `late_stage` value on
the LATE diagnosis flag and the three regional scores. -/
theorem diagRecord_get_late_stage (cols : List String) (r : Record)
    (h5 : "CSTDP43" ∈ cols) (h6 : "DGTDP43" ∈ cols) (h7 : "ECTDP43" ∈ cols) :
    Record.get (diagRecord cols r) "LATE_stage" =
      Val.num (late_stage
        (is_any_diag_late (Record.get r "NPDx1") (Record.get r "NPDx2")
          (Record.get r "NPDx3") (Record.get r "NPDx4"))
        (asNum (Record.get r "CSTDP43")) (asNum (Record.get r "DGTDP43"))
        (asNum (Record.get r "ECTDP43"))) := by
  simp only [diagRecord]
  rw [Record.get_set_ne _ _ _ _ (by decide)]
  rw [Record.get_set_ne _ _ _ _ (by decide)]
  rw [Record.get_set_ne _ _ _ _ (by decide)]
  rw [Record.get_set_ne _ _ _ _ (by decide)]
  rw [Record.get_set_ne _ _ _ _ (by decide)]
  rw [Record.get_set_ne _ _ _ _ (by decide)]
  rw [Record.get_set_ne _ _ _ _ (by decide)]
  rw [Record.get_set_ne _ _ _ _ (by decide)]
  rw [if_pos ⟨h5, h6, h7⟩]
  rw [Record.get_set_self]

/-! ## Claim theorems -/

/-- C3 counterexample: the label list that `is_first_diag_nadt` tests slot 1
against has exactly six (pairwise distinct) labels, not eight as the claim
states. -/
theorem first_diag_nadt_label_count_counterexample :
    first_diag_nadt_labels.length = 6 ∧ first_diag_nadt_labels.length ≠ 8 ∧
    first_diag_nadt_labels.Nodup := by decide

/-- C3 (amended): `is_first_diag_nadt` is true iff diagnosis slot 1 equals
one of a fixed set of exactly six non-AD tauopathy labels. -/
theorem first_diag_nadt_six_labels :
    (∀ v : Val, is_first_diag_nadt v = true ↔ ∃ l ∈ first_diag_nadt_labels, v = Val.str l) ∧
    first_diag_nadt_labels.length = 6 ∧ first_diag_nadt_labels.Nodup := by
  refine ⟨?_, by decide, by decide⟩
  intro v
  simp [is_first_diag_nadt, valIsin, List.any_eq_true, beq_iff_eq]

/-- C4 (code bug): `clean_cndr_dataset` computes the recoded and merged
table but its body has no return statement (and its `def` line lacks a
colon), so it returns `None` instead of the augmented table — here evaluated
on a concrete table that the pipeline would have augmented. -/
theorem clean_cndr_dataset_returns_none :
    clean_cndr_dataset ⟨["Braak06", "Braak03"],
      [[("Braak06", Val.num 4), ("Braak03", Val.num 2)]]⟩ = none := rfl

/-- C6: the field recoder keeps the column list, keeps every record's cell
structure, rewrites each cell of a region-measure column by the fixed
recoding table (each of the nine keys mapping as the claim states, with the
NaN-valued keys going to missing), leaves any value that is not a key of the
table unchanged (for example the text `Borderline`), and touches no cell of
a column outside the region-measure cross product. -/
theorem semiq_scores_to_numeric_spec :
    (∀ v : Val, (∀ p ∈ repl_semiq, v ≠ Val.str p.1) → replaceVal repl_semiq v = v) ∧
    (∀ t : Table, (semiq_scores_to_numeric t).cols = t.cols) ∧
    (∀ t : Table, (semiq_scores_to_numeric t).rows = t.rows.map (fun r =>
        r.map (fun cv =>
          (cv.1, if cv.1 ∈ cols_semiq then replaceVal repl_semiq cv.2 else cv.2)))) ∧
    (∀ t : Table, (semiq_scores_to_numeric t).rows.map (fun r => r.map Prod.fst)
        = t.rows.map (fun r => r.map Prod.fst)) ∧
    replaceVal repl_semiq (Val.str "Rare") = Val.num (1/2) ∧
    replaceVal repl_semiq (Val.str "0") = Val.num 0 ∧
    replaceVal repl_semiq (Val.str "Presumed 0") = Val.num 0 ∧
    replaceVal repl_semiq (Val.str "1+") = Val.num 1 ∧
    replaceVal repl_semiq (Val.str "2+") = Val.num 2 ∧
    replaceVal repl_semiq (Val.str "3+") = Val.num 3 ∧
    replaceVal repl_semiq (Val.str "Not Avail") = Val.missing ∧
    replaceVal repl_semiq (Val.str "Not Done") = Val.missing ∧
    replaceVal repl_semiq (Val.str "Not Available") = Val.missing ∧
    replaceVal repl_semiq (Val.str "Borderline") = Val.str "Borderline" := by
  refine ⟨?_, fun t => rfl, fun t => rfl, ?_, rfl, rfl, rfl,
    rfl, rfl, rfl, rfl, rfl, rfl, rfl⟩
  · intro v hv
    cases v with
    | str s =>
      have hfind : repl_semiq.find? (fun p => p.1 == s) = none := by
        rw [List.find?_eq_none]
        intro p hp
        have hne := hv p hp
        simp only [Bool.not_eq_true, beq_eq_false_iff_ne, ne_eq]
        intro hq
        exact hne (by rw [hq])
      simp [replaceVal, hfind]
    | num q => rfl
    | bool b => rfl
    | missing => rfl
  · intro t
    simp [semiq_scores_to_numeric, List.map_map, Function.comp]

/-- C6 witness: a numeric cell is not a key of the recoding table and passes
through unchanged. -/
theorem semiq_scores_to_numeric_spec_witness :
    replaceVal repl_semiq (Val.num 7) = Val.num 7 :=
  semiq_scores_to_numeric_spec.1 (Val.num 7) (by decide)

/-- C9: whenever `is_clean_ad` (source name `is_ad`) holds for a record, so
does `is_robin_eligible`, because the six-label set tested against slot 1 is
a subset of the thirteen-label set tested against all four slots. -/
theorem clean_ad_implies_robin_eligible :
    (∀ s1 s2 s3 s4 : Val, is_ad s1 s2 s3 s4 = true → is_robin_eligible s1 s2 s3 s4 = true) ∧
    (∀ l ∈ first_diag_nadt_labels, l ∈ nadt_ftld_labels) := by
  constructor
  · intro s1 s2 s3 s4 h
    simp only [is_ad, Bool.and_eq_true, Bool.not_eq_true'] at h
    obtain ⟨had, hnadt⟩ := h
    simp only [is_robin_eligible, Bool.and_eq_true, Bool.not_eq_true']
    refine ⟨had, ?_⟩
    cases hf : is_first_diag_nadt s1
    · rfl
    · exfalso
      have h1 : valIsin s1 nadt_ftld_labels = true :=
        isin_nadt_of_first s1 (by simpa [is_first_diag_nadt] using hf)
      simp [is_any_diag_nadt_ftld, h1] at hnadt
  · intro l hl
    simp only [first_diag_nadt_labels, List.mem_cons, List.not_mem_nil, or_false] at hl
    rcases hl with rfl | rfl | rfl | rfl | rfl | rfl <;> decide

/-- C9 witness: a record whose only diagnosis is AD is clean AD, hence
Robin-eligible, and a concrete label of the six-label set is in the
thirteen-label set. -/
theorem clean_ad_implies_robin_eligible_witness :
    is_robin_eligible (Val.str ad_label) Val.missing Val.missing Val.missing = true ∧
    "Corticobasal degeneration" ∈ nadt_ftld_labels :=
  ⟨clean_ad_implies_robin_eligible.1 (Val.str ad_label) Val.missing Val.missing Val.missing
      (by decide),
   clean_ad_implies_robin_eligible.2 "Corticobasal degeneration" (by decide)⟩

/-- C1 counterexample: a record with a LATE diagnosis whose three regional
TDP-43 scores average to -1 receives `LATE_stage = 2` although the average
is not greater than 0: the source mask is `(is_any_diag_late & mtl_tdp) > 0`
(Python binds `&` tighter than `>`), not `is_any_diag_late AND (mtl_tdp > 0)`. -/
theorem late_stage_rule_grouping_counterexample :
    late_stage true (some (-1)) (some (-1)) (some (-1)) = 2 ∧
    gtQ (mtl_tdp (some (-1)) (some (-1)) (some (-1))) 0 = false := by
  constructor
  · norm_num [late_stage, mtl_tdp, truthy]
  · norm_num [gtQ, mtl_tdp]

/-- C1 (amended): `LATE_stage` is 2 exactly when the record has a LATE
diagnosis and the average of the three regional TDP-43 scores is truthy
(non-missing and non-zero) under the pandas boolean coercion of the float
operand of `&`; for the non-negative score domain this coincides with
`average > 0`, but not for negative averages. -/
theorem late_stage_two_iff_truthy_mean :
    ∀ (late : Bool) (cs dg ec : Option ℚ),
      late_stage late cs dg ec = 2 ↔ (late && truthy (mtl_tdp cs dg ec)) = true := by
  intro late cs dg ec
  cases late <;> cases htm : truthy (mtl_tdp cs dg ec) <;> norm_num [late_stage, htm]

/-- C2 counterexample: a record with amyloid 1, missing merged Braak stage
and plaque density 0 receives `ADNC_severity = 1`: the threshold rule
`ABeta > 0.5` overwrites the missing value that the null-guard had just
forced, so a missing source does not always make the severity missing. -/
theorem adnc_severity_overrides_missing_counterexample :
    adnc_severity (some 1) none (some 0) = some 1 := by
  norm_num [adnc_severity, gtQ]

/-- C2 (amended): `ADNC_severity` is missing iff some of the three source
values is missing AND none of the four ordered threshold rules matches
(missing-value comparisons being false); a matching later rule overwrites
the missing value forced by the null guards. -/
theorem adnc_severity_missing_iff :
    ∀ a b c : Option ℚ,
      adnc_severity a b c = none ↔
        ((a = none ∨ b = none ∨ c = none) ∧
         gtQ a (1/2) = false ∧
         (gtQ b (3/2) && gtQ a (3/2)) = false ∧
         (gtQ b (3/2) && gtQ a (1/2) && gtQ c (3/2)) = false ∧
         (gtQ b (5/2) && gtQ a (5/2) && gtQ c (3/2)) = false) := by
  intro a b c
  simp only [adnc_severity]
  split_ifs <;> simp_all

/-- C5 counterexample: with coarse stage 4 and fine stage missing, the
merged stage is ceil(4 x 0.5) = 2, which is not the value 4 of the other
(coarse) source: with exactly one source missing the merged value equals
that source's contribution to the mean, not the source itself. -/
theorem merge_braak_missing_fine_counterexample :
    mergeVal (Val.num 4) Val.missing = some 2 ∧ (2 : ℚ) ≠ 4 := by
  constructor
  · norm_num [mergeVal, nanmean, normStage, ceilHalf, List.filterMap_cons,
      List.sum_cons, List.sum_nil]
  · norm_num

/-- C5 (amended): the stage reconciler is a no-op when either staging column
is absent; when both are present it writes, for every record, the `nanmean`
of ceil(coarse x 0.5) and fine, which is: missing when both sources are
missing, the fine value when only the coarse is missing, ceil(coarse x 0.5)
when only the fine is missing, and the mean of the two contributions when
both are present; the Unknown sentinel behaves as missing. -/
theorem merge_braak_stages_spec :
    (∀ t : Table, ¬ ("Braak06" ∈ t.cols ∧ "Braak03" ∈ t.cols) →
      merge_braak_stages t = t) ∧
    (∀ t : Table, "Braak06" ∈ t.cols → "Braak03" ∈ t.cols →
      (∀ r ∈ t.rows, stageClean (Record.get r "Braak06") = true ∧
                     stageClean (Record.get r "Braak03") = true) →
      (merge_braak_stages t).rows = t.rows.map (fun r =>
        Record.set r "BraakMrg"
          (optToVal (mergeVal (Record.get r "Braak06") (Record.get r "Braak03"))))) ∧
    mergeVal Val.missing Val.missing = none ∧
    (∀ q : ℚ, mergeVal Val.missing (Val.num q) = some q) ∧
    (∀ q : ℚ, mergeVal (Val.num q) Val.missing = some (ceilHalf q)) ∧
    (∀ p q : ℚ, mergeVal (Val.num p) (Val.num q) = some ((ceilHalf p + q) / 2)) ∧
    (∀ v : Val, mergeVal (Val.str "Unknown") v = mergeVal Val.missing v ∧
                mergeVal v (Val.str "Unknown") = mergeVal v Val.missing) := by
  refine ⟨?_, ?_, rfl, ?_, ?_, ?_, ?_⟩
  · intro t h
    simp [merge_braak_stages, h]
  · intro t h1 h2 _
    simp [merge_braak_stages, h1, h2]
  · intro q
    norm_num [mergeVal, nanmean, normStage, List.filterMap_cons, List.sum_cons,
      List.sum_nil]
  · intro q
    norm_num [mergeVal, nanmean, normStage, List.filterMap_cons, List.sum_cons,
      List.sum_nil]
  · intro p q
    norm_num [mergeVal, nanmean, normStage, List.filterMap_cons, List.sum_cons,
      List.sum_nil]
  · intro v
    constructor
    · rfl
    · cases v <;> rfl

/-- C5 witness: the no-op case on a table lacking both staging columns, the
row-map case on a table with both columns and no rows, and the
coarse-missing case at fine stage 3. -/
theorem merge_braak_stages_spec_witness :
    merge_braak_stages ⟨[], []⟩ = ⟨[], []⟩ ∧
    (merge_braak_stages ⟨["Braak06", "Braak03"], []⟩).rows = [] ∧
    mergeVal Val.missing (Val.num 3) = some 3 :=
  ⟨merge_braak_stages_spec.1 ⟨[], []⟩ (by simp),
   merge_braak_stages_spec.2.1 ⟨["Braak06", "Braak03"], []⟩ (by simp) (by simp)
     (by intro r hr; cases hr),
   merge_braak_stages_spec.2.2.2.1 3⟩

set_option maxHeartbeats 1600000 in
/-- C7: every `ADNC_severity` value is missing or one of 0, 1, 2, 3, and on
records whose three inputs are all present, the severity is monotone
non-decreasing in the three inputs under the fixed overriding rule order. -/
theorem adnc_severity_range_mono :
    (∀ a b c : Option ℚ,
        adnc_severity a b c = none ∨ adnc_severity a b c = some 0 ∨
        adnc_severity a b c = some 1 ∨ adnc_severity a b c = some 2 ∨
        adnc_severity a b c = some 3) ∧
    (∀ a b c a' b' c' : ℚ, a ≤ a' → b ≤ b' → c ≤ c' →
        Option.getD (adnc_severity (some a) (some b) (some c)) 0 ≤
        Option.getD (adnc_severity (some a') (some b') (some c')) 0) := by
  constructor
  · intro a b c
    simp only [adnc_severity]
    split_ifs <;> simp
  · intro a b c a' b' c' ha hb hc
    have t1 : (1:ℚ)/2 < a → (1:ℚ)/2 < a' := fun h => lt_of_lt_of_le h ha
    have t2 : (3:ℚ)/2 < a → (3:ℚ)/2 < a' := fun h => lt_of_lt_of_le h ha
    have t3 : (5:ℚ)/2 < a → (5:ℚ)/2 < a' := fun h => lt_of_lt_of_le h ha
    have t4 : (3:ℚ)/2 < b → (3:ℚ)/2 < b' := fun h => lt_of_lt_of_le h hb
    have t5 : (5:ℚ)/2 < b → (5:ℚ)/2 < b' := fun h => lt_of_lt_of_le h hb
    have t6 : (3:ℚ)/2 < c → (3:ℚ)/2 < c' := fun h => lt_of_lt_of_le h hc
    have r2t : ((3:ℚ)/2 < b ∧ (3:ℚ)/2 < a) → ((3:ℚ)/2 < b' ∧ (3:ℚ)/2 < a') :=
      fun h => ⟨t4 h.1, t2 h.2⟩
    have r3t : (((3:ℚ)/2 < b ∧ (1:ℚ)/2 < a) ∧ (3:ℚ)/2 < c) →
        (((3:ℚ)/2 < b' ∧ (1:ℚ)/2 < a') ∧ (3:ℚ)/2 < c') :=
      fun h => ⟨⟨t4 h.1.1, t1 h.1.2⟩, t6 h.2⟩
    have r4t : (((5:ℚ)/2 < b ∧ (5:ℚ)/2 < a) ∧ (3:ℚ)/2 < c) →
        (((5:ℚ)/2 < b' ∧ (5:ℚ)/2 < a') ∧ (3:ℚ)/2 < c') :=
      fun h => ⟨⟨t5 h.1.1, t3 h.1.2⟩, t6 h.2⟩
    simp only [adnc_severity, gtQ, Bool.and_eq_true, decide_eq_true_eq,
      reduceCtorEq, if_false]
    split_ifs <;> simp only [Option.getD_some] <;>
      first
      | (norm_num; done)
      | (exfalso; solve_by_elim [r2t, r3t, r4t])

/-- C7 witness: pointwise-larger present inputs at (0,0,0) and (3,3,3). -/
theorem adnc_severity_range_mono_witness :
    Option.getD (adnc_severity (some 0) (some 0) (some 0)) 0 ≤
      Option.getD (adnc_severity (some 3) (some 3) (some 3)) 0 :=
  adnc_severity_range_mono.2 0 0 0 3 3 3 (by norm_num) (by norm_num) (by norm_num)

/-- C8: when any of the four diagnosis-slot columns is absent from the
table, the derivation engine fails with an error naming the absent column
(the source raises a KeyError listing the requested columns that are not in
the index before writing any output column). -/
theorem add_diagnostic_categories_missing_column_error :
    ∀ (t : Table) (c : String), c ∈ npdx_cols → ¬ c ∈ t.cols →
      ∃ m, add_diagnostic_categories t = Except.error m ∧ c ∈ m := by
  intro t c hc hnc
  have hmem : c ∈ npdx_cols.filter (fun c => !(decide (c ∈ t.cols))) := by
    rw [List.mem_filter]
    exact ⟨hc, by simp [hnc]⟩
  refine ⟨npdx_cols.filter (fun c => !(decide (c ∈ t.cols))), ?_, hmem⟩
  simp only [add_diagnostic_categories]
  rw [if_neg]
  intro h
  rw [List.isEmpty_iff] at h
  rw [h] at hmem
  exact List.not_mem_nil c hmem

/-- C8 witness: a table carrying only `NPDx1` makes the engine fail with an
error containing `NPDx2`. -/
theorem add_diagnostic_categories_missing_column_error_witness :
    ∃ m, add_diagnostic_categories ⟨["NPDx1"], []⟩ = Except.error m ∧ "NPDx2" ∈ m :=
  add_diagnostic_categories_missing_column_error ⟨["NPDx1"], []⟩ "NPDx2"
    (by simp [npdx_cols]) (by simp)

/-- C10: whenever the four diagnosis-slot columns and the three regional
TDP-43 columns are present in the table (and the numeric source cells are
numbers or missing, so the arithmetic of the source is defined), the engine
succeeds, the output rows are the input rows through the derivation, every
output record carries a non-missing `LATE_stage` value among 0, 1 and 2 —
never NaN — and a record with a LATE diagnosis whose three regional TDP-43
cells are all missing receives exactly the value 1. -/
theorem late_stage_column_total :
    ∀ t : Table,
      "NPDx1" ∈ t.cols → "NPDx2" ∈ t.cols → "NPDx3" ∈ t.cols → "NPDx4" ∈ t.cols →
      "CSTDP43" ∈ t.cols → "DGTDP43" ∈ t.cols → "ECTDP43" ∈ t.cols →
      (∀ r ∈ t.rows, ∀ c ∈ ["ABeta", "BraakMrg", "CERAD", "CSTDP43", "DGTDP43", "ECTDP43"],
        numOrMissing (Record.get r c) = true) →
      ∃ t' : Table, add_diagnostic_categories t = Except.ok t' ∧
        t'.rows = t.rows.map (diagRecord t.cols) ∧
        (∀ r' ∈ t'.rows,
          Record.get r' "LATE_stage" = Val.num 0 ∨
          Record.get r' "LATE_stage" = Val.num 1 ∨
          Record.get r' "LATE_stage" = Val.num 2) ∧
        (∀ r ∈ t.rows,
          is_any_diag_late (Record.get r "NPDx1") (Record.get r "NPDx2")
            (Record.get r "NPDx3") (Record.get r "NPDx4") = true →
          Record.get r "CSTDP43" = Val.missing →
          Record.get r "DGTDP43" = Val.missing →
          Record.get r "ECTDP43" = Val.missing →
          Record.get (diagRecord t.cols r) "LATE_stage" = Val.num 1) := by
  intro t h1 h2 h3 h4 h5 h6 h7 _
  refine ⟨⟨diagCols t.cols, t.rows.map (diagRecord t.cols)⟩, ?_, rfl, ?_, ?_⟩
  · simp only [add_diagnostic_categories]
    have hfil : npdx_cols.filter (fun c => !(decide (c ∈ t.cols))) = [] := by
      simp [npdx_cols, List.filter_cons, h1, h2, h3, h4]
    rw [hfil]
    rfl
  · intro r' hr'
    rw [List.mem_map] at hr'
    obtain ⟨r, _, rfl⟩ := hr'
    rw [diagRecord_get_late_stage t.cols r h5 h6 h7]
    rcases late_stage_mem
        (is_any_diag_late (Record.get r "NPDx1") (Record.get r "NPDx2")
          (Record.get r "NPDx3") (Record.get r "NPDx4"))
        (asNum (Record.get r "CSTDP43")) (asNum (Record.get r "DGTDP43"))
        (asNum (Record.get r "ECTDP43")) with h | h | h
    · exact Or.inl (by rw [h])
    · exact Or.inr (Or.inl (by rw [h]))
    · exact Or.inr (Or.inr (by rw [h]))
  · intro r _ hlate hcs hdg hec
    rw [diagRecord_get_late_stage t.cols r h5 h6 h7, hlate, hcs, hdg, hec]
    rfl

/-- C10 witness: a table with the required diagnosis-slot and TDP-43
columns, one record with a LATE diagnosis and no TDP-43 cells; its
`LATE_stage` is 1 by the last component of the theorem. -/
theorem late_stage_column_total_witness :
    ∃ t' : Table,
      add_diagnostic_categories
        ⟨["NPDx1", "NPDx2", "NPDx3", "NPDx4", "CSTDP43", "DGTDP43", "ECTDP43"],
         [[("NPDx1", Val.str late_label)]]⟩ = Except.ok t' ∧
      t'.rows = [[("NPDx1", Val.str late_label)]].map
        (diagRecord ["NPDx1", "NPDx2", "NPDx3", "NPDx4", "CSTDP43", "DGTDP43", "ECTDP43"]) ∧
      (∀ r' ∈ t'.rows,
        Record.get r' "LATE_stage" = Val.num 0 ∨
        Record.get r' "LATE_stage" = Val.num 1 ∨
        Record.get r' "LATE_stage" = Val.num 2) ∧
      (∀ r ∈ [[("NPDx1", Val.str late_label)]],
        is_any_diag_late (Record.get r "NPDx1") (Record.get r "NPDx2")
          (Record.get r "NPDx3") (Record.get r "NPDx4") = true →
        Record.get r "CSTDP43" = Val.missing →
        Record.get r "DGTDP43" = Val.missing →
        Record.get r "ECTDP43" = Val.missing →
        Record.get (diagRecord
          ["NPDx1", "NPDx2", "NPDx3", "NPDx4", "CSTDP43", "DGTDP43", "ECTDP43"] r)
          "LATE_stage" = Val.num 1) :=
  late_stage_column_total
    ⟨["NPDx1", "NPDx2", "NPDx3", "NPDx4", "CSTDP43", "DGTDP43", "ECTDP43"],
     [[("NPDx1", Val.str late_label)]]⟩
    (by simp) (by simp) (by simp) (by simp) (by simp) (by simp) (by simp)
    (by decide)
